import Mathlib

/-!
Verification of the continuous monitoring subsystem of `mcp_lcu_server`
(`src/mcp_lcu_server/linux/monitoring.py`, class `MonitoringOperations`).

The Python code is shallowly embedded: dictionaries become association lists
over a JSON-like value type, floats become rationals (only order comparisons
and exact divisions are exercised, where the two agree), and the stateful
loop becomes explicit state passing.  Python list slicing `xs[s:]` is
embedded with its exact clamping semantics.
-/

namespace MonSpec

/-- JSON-like values, the shape of the Python dict payloads built by
`monitoring.py`. -/
inductive Val where
  | num  : ℚ → Val
  | str  : String → Val
  | list : List Val → Val
  | dict : List (String × Val) → Val

/-- A metric sample: the Python dicts produced by the `_collect_*` methods,
as ordered key/value lists. -/
abbrev Sample := List (String × Val)

/-- Python `d.get(k, default)` on a dict embedded as an association list. -/
def dictGet (d : List (String × Val)) (k : String) (default : Val) : Val :=
  match d.lookup k with
  | some v => v
  | none => default

/-- Python slice `xs[s:]` for an arbitrary integer start index `s`:
a negative start counts from the end and clamps at 0, a nonnegative start
clamps at the length. -/
def pySliceFrom (s : Int) (xs : List α) : List α :=
  if s < 0 then xs.drop ((xs.length : Int) + s).toNat
  else xs.drop s.toNat

/-- Effect of `MonitoringOperations._add_metrics` (monitoring.py lines
439-452) on the one affected category series: append, then if the length
exceeds `max_metrics` keep the slice `series[-max_metrics:]`. -/
def add_metrics_step (maxMetrics : Nat) (series : List α) (m : α) : List α :=
  let series := series ++ [m]
  if series.length > maxMetrics then pySliceFrom (-(maxMetrics : Int)) series
  else series

/-- The per-category metrics store (`self.metrics_store`, lines 57-63). -/
structure MetricsStore (α : Type) where
  cpu : List α
  memory : List α
  disk : List α
  network : List α
  system : List α

/-- `MonitoringOperations._add_metrics` at store level: `metric_type` selects
the series (call sites only ever pass the five keys present in
`metrics_store`; any other key would raise `KeyError` in Python and is never
exercised, embedded as a no-op). -/
def add_metrics (maxMetrics : Nat) (store : MetricsStore α) (metric_type : String)
    (m : α) : MetricsStore α :=
  if metric_type = "cpu" then { store with cpu := add_metrics_step maxMetrics store.cpu m }
  else if metric_type = "memory" then { store with memory := add_metrics_step maxMetrics store.memory m }
  else if metric_type = "disk" then { store with disk := add_metrics_step maxMetrics store.disk m }
  else if metric_type = "network" then { store with network := add_metrics_step maxMetrics store.network m }
  else if metric_type = "system" then { store with system := add_metrics_step maxMetrics store.system m }
  else store

/-- `MonitoringOperations.get_cpu_metrics` (lines 165-177):
`self.metrics_store["cpu"][-count:] if self.metrics_store["cpu"] else []`. -/
def get_cpu_metrics (store : MetricsStore α) (count : Int) : List α :=
  if store.cpu.isEmpty then [] else pySliceFrom (-count) store.cpu

/-- `MonitoringOperations.get_memory_metrics` (lines 179-191). -/
def get_memory_metrics (store : MetricsStore α) (count : Int) : List α :=
  if store.memory.isEmpty then [] else pySliceFrom (-count) store.memory

/-- `MonitoringOperations.get_disk_metrics` (lines 193-205). -/
def get_disk_metrics (store : MetricsStore α) (count : Int) : List α :=
  if store.disk.isEmpty then [] else pySliceFrom (-count) store.disk

/-- `MonitoringOperations.get_network_metrics` (lines 207-219). -/
def get_network_metrics (store : MetricsStore α) (count : Int) : List α :=
  if store.network.isEmpty then [] else pySliceFrom (-count) store.network

/-- `MonitoringOperations.get_system_metrics` (lines 221-233). -/
def get_system_metrics (store : MetricsStore α) (count : Int) : List α :=
  if store.system.isEmpty then [] else pySliceFrom (-count) store.system

/-- Modelled from the spec: the source exposes only the five per-category
getters above; the unified read interface `get_metrics(category, count)`
with "empty if category unknown or no samples yet" appears only in the spec
(section 6).  It dispatches on the category name to the per-category getter
embedded from the source, any other category yielding the empty sequence. -/
def get_metrics (store : MetricsStore α) (category : String) (count : Int) : List α :=
  if category = "cpu" then get_cpu_metrics store count
  else if category = "memory" then get_memory_metrics store count
  else if category = "disk" then get_disk_metrics store count
  else if category = "network" then get_network_metrics store count
  else if category = "system" then get_system_metrics store count
  else []

/-- The series a category name denotes (empty for an unknown category). -/
def series_of (store : MetricsStore α) (category : String) : List α :=
  if category = "cpu" then store.cpu
  else if category = "memory" then store.memory
  else if category = "disk" then store.disk
  else if category = "network" then store.network
  else if category = "system" then store.system
  else []

/-- The part of a system-status dictionary that `check_system_health`
(monitoring.py lines 247-377) reads: `status["cpu"]["usage_percent"]`,
`status["memory"]["percent"]`, the `(mountpoint, percent)` of each entry of
`status["disks"]`, and `status["cpu"]["load_average"]["1min_per_cpu"]`. -/
structure StatusInput where
  cpu_usage : ℚ
  memory_percent : ℚ
  disks : List (String × ℚ)
  load_1min_per_cpu : ℚ

/-- An entry of the `issues` list built by `check_system_health`.  The
source message field is an f-string rendering of the numbers; we retain the
data that distinguishes messages: the component, the severity and, for disk
issues, the mountpoint the message embeds. -/
structure Issue where
  component : String
  severity : String
  mount : Option String
deriving DecidableEq

/-- The mutable trio `(health_status, severity, issues)` threaded through
`check_system_health`. -/
structure HealthState where
  status : String
  sev : Nat
  issues : List Issue

/-- One threshold check of `check_system_health` (the shape shared by the
cpu, memory, per-disk and load checks, e.g. lines 267-283): the critical
branch sets status Critical and severity 3; the elif warning branch raises
status and severity only when severity < 2; each branch appends its issue. -/
def health_check_step (critCond warnCond : Prop) [Decidable critCond]
    [Decidable warnCond] (ci wi : Issue) (st : HealthState) : HealthState :=
  if critCond then { status := "Critical", sev := 3, issues := st.issues ++ [ci] }
  else if warnCond then
    if st.sev < 2 then { status := "Warning", sev := 2, issues := st.issues ++ [wi] }
    else { st with issues := st.issues ++ [wi] }
  else st

/-- The recommendation block of `check_system_health` (lines 350-363). -/
def health_recommendations (issues : List Issue) : List String :=
  (if issues.any (fun i => i.component == "cpu" && i.severity == "critical")
    then ["Identify and terminate CPU-intensive processes"] else []) ++
  (if issues.any (fun i => i.component == "memory" && i.severity == "critical")
    then ["Check for memory leaks or increase system memory"] else []) ++
  (if issues.any (fun i => i.component == "disk" && i.severity == "critical")
    then ["Free up disk space by removing unnecessary files"] else []) ++
  (if issues.any (fun i => i.component == "load" && i.severity == "critical")
    then ["Reduce system load by terminating unnecessary processes"] else [])

/-- The health-check report (lines 366-372; the echoed `system_status` input
is omitted as redundant with the argument). -/
structure HealthReport where
  timestamp : ℚ
  status : String
  issues : List Issue
  recommendations : List String

/-- `MonitoringOperations.check_system_health` (lines 247-377), with the
status input abstracted as in `StatusInput`. -/
def check_system_health (now : ℚ) (s : StatusInput) : HealthReport :=
  let st : HealthState := ⟨"Healthy", 0, []⟩
  let st := health_check_step (s.cpu_usage > 90) (s.cpu_usage > 75)
    ⟨"cpu", "critical", none⟩ ⟨"cpu", "warning", none⟩ st
  let st := health_check_step (s.memory_percent > 90) (s.memory_percent > 75)
    ⟨"memory", "critical", none⟩ ⟨"memory", "warning", none⟩ st
  let st := s.disks.foldl (fun st d =>
    health_check_step (d.2 > 90) (d.2 > 75)
      ⟨"disk", "critical", some d.1⟩ ⟨"disk", "warning", some d.1⟩ st) st
  let st := health_check_step (s.load_1min_per_cpu > 3) (s.load_1min_per_cpu > 1.5)
    ⟨"load", "critical", none⟩ ⟨"load", "warning", none⟩ st
  ⟨now, st.status, st.issues, health_recommendations st.issues⟩

/-- The issues one threshold check contributes. -/
def cond_issues (critCond warnCond : Prop) [Decidable critCond]
    [Decidable warnCond] (ci wi : Issue) : List Issue :=
  if critCond then [ci] else if warnCond then [wi] else []

/-- There is an issue with the given component and severity. -/
def has_issue (issues : List Issue) (comp sev : String) : Bool :=
  issues.any (fun i => i.component == comp && i.severity == sev)

/-- There is an issue with the given component. -/
def has_component (issues : List Issue) (comp : String) : Bool :=
  issues.any (fun i => i.component == comp)

/-- There is a disk issue with the given severity for the given mount. -/
def disk_issue (issues : List Issue) (sev : String) (m : String) : Bool :=
  issues.any (fun i => i.component == "disk" && i.severity == sev
    && i.mount == some m)

/-- Maximum severity rank across a list of issues (3 critical, 2 warning). -/
def max_sev (issues : List Issue) : Nat :=
  if issues.any (fun i => i.severity == "critical") then 3
  else if issues.any (fun i => i.severity == "warning") then 2
  else 0

/-- The status label the severity ranks of `check_system_health` denote. -/
def status_of_sev (n : Nat) : String :=
  if n = 3 then "Critical" else if n = 2 then "Warning" else "Healthy"

/-- The issues `check_system_health` accumulates, check by check. -/
def expected_issues (s : StatusInput) : List Issue :=
  cond_issues (s.cpu_usage > 90) (s.cpu_usage > 75)
    ⟨"cpu", "critical", none⟩ ⟨"cpu", "warning", none⟩ ++
  cond_issues (s.memory_percent > 90) (s.memory_percent > 75)
    ⟨"memory", "critical", none⟩ ⟨"memory", "warning", none⟩ ++
  disks_issues s.disks ++
  cond_issues (s.load_1min_per_cpu > 3) (s.load_1min_per_cpu > 1.5)
    ⟨"load", "critical", none⟩ ⟨"load", "warning", none⟩
where
  disks_issues (disks : List (String × ℚ)) : List Issue :=
    disks.flatMap (fun d =>
      cond_issues (d.2 > 90) (d.2 > 75)
        ⟨"disk", "critical", some d.1⟩ ⟨"disk", "warning", some d.1⟩)

/-- Monitoring lifecycle state: `self.monitoring_enabled`, whether
`self.monitoring_thread` exists and is alive, and
`self.stop_monitoring_flag` (lines 46-51). -/
structure MonitorState where
  monitoring_enabled : Bool
  thread_alive : Bool
  stop_flag : Bool

/-- `MonitoringOperations.start_monitoring` (lines 68-94): refuses when the
thread is already alive or monitoring is disabled; otherwise clears the stop
flag and starts the daemon thread (which is then alive). -/
def start_monitoring (s : MonitorState) : Bool × MonitorState :=
  if s.thread_alive then (false, s)
  else if !s.monitoring_enabled then (false, s)
  else (true, { s with stop_flag := false, thread_alive := true })

/-- `MonitoringOperations.stop_monitoring` (lines 96-119): refuses when the
thread is not running; otherwise sets the stop flag and joins with a
5-second timeout.  `join_ok` is whether that bounded join observes the
worker exit — the worker only re-checks the flag after `time.sleep(interval)`
(line 434), so a join issued mid-sleep with interval above the grace period
times out: then `stop()` returns False with the thread still alive and
`monitoring_thread` left in place (lines 113-115); only a successful join
clears the thread and returns True. -/
def stop_monitoring (join_ok : Bool) (s : MonitorState) : Bool × MonitorState :=
  if !s.thread_alive then (false, s)
  else if !join_ok then (false, { s with stop_flag := true })
  else (true, { s with stop_flag := true, thread_alive := false })

/-- A non-reentrant `threading.Lock` acquisition: acquiring a lock the
calling thread already holds blocks that thread forever; the blocked
acquisition is modelled as `none`. -/
def acquire_lock (held_by_caller : Bool) : Option Unit :=
  if held_by_caller then none else some ()

/-- `MonitoringOperations.is_monitoring_running` (lines 121-128): acquires
`monitoring_lock`, then reads the thread state. -/
def is_monitoring_running (held_by_caller : Bool) (s : MonitorState) :
    Option Bool :=
  (acquire_lock held_by_caller).map (fun _ => s.thread_alive)

/-- The dictionary `get_monitoring_status` is meant to return
(lines 137-142). -/
structure MonitoringStatus where
  enabled : Bool
  running : Bool
  interval : Nat
  metrics : List (String × Nat)

/-- `MonitoringOperations.get_monitoring_status` (lines 130-142): acquires
`monitoring_lock` and, while holding it, calls `is_monitoring_running`,
which tries to acquire the same non-reentrant lock again. -/
def get_monitoring_status (held_by_caller : Bool) (interval : Nat)
    (s : MonitorState) (store : MetricsStore α) : Option MonitoringStatus :=
  match acquire_lock held_by_caller with
  | none => none
  | some _ =>
      (is_monitoring_running true s).map (fun running =>
        ⟨s.monitoring_enabled, running, interval,
          [("cpu", store.cpu.length), ("memory", store.memory.length),
           ("disk", store.disk.length), ("network", store.network.length),
           ("system", store.system.length)]⟩)

/-- Outcome of invoking one subscriber callback on a payload: it either
returns or raises (with the exception message).  `_trigger_callbacks`
catches and logs a raise (lines 463-466). -/
inductive CallbackResult where
  | ok : CallbackResult
  | raised : String → CallbackResult
deriving DecidableEq

/-- A subscriber callback as the loop observes it. -/
abbrev Callback (π : Type) := π → CallbackResult

/-- `self.callbacks` (line 54): event type → ordered list of callbacks,
with dict insertion order. -/
abbrev CallbackRegistry (π : Type) := List (String × List (Callback π))

/-- `MonitoringOperations.register_callback` (lines 235-245): create the
entry if the event type is absent (at the end, as Python dicts preserve
insertion order), then append the callback to the entry's list. -/
def register_callback (reg : CallbackRegistry π) (event_type : String)
    (cb : Callback π) : CallbackRegistry π :=
  match reg with
  | [] => [(event_type, [cb])]
  | (k, cbs) :: rest =>
      if k = event_type then (k, cbs ++ [cb]) :: rest
      else (k, cbs) :: register_callback rest event_type cb

/-- The `for callback in self.callbacks[event_type]` loop of
`_trigger_callbacks` (lines 462-466): each callback is invoked in turn; a
raise is caught (and logged), and iteration continues with the next
callback — the returned trace records every invocation's outcome in order. -/
def run_callbacks (cbs : List (Callback π)) (data : π) : List CallbackResult :=
  match cbs with
  | [] => []
  | cb :: rest => cb data :: run_callbacks rest data

/-- `MonitoringOperations._trigger_callbacks` (lines 454-466): nothing runs
when the event type has no entry; otherwise every registered callback is
invoked in order. -/
def trigger_callbacks (reg : CallbackRegistry π) (event_type : String)
    (data : π) : List CallbackResult :=
  match reg.lookup event_type with
  | none => []
  | some cbs => run_callbacks cbs data

/-- The callbacks registered for an event type (empty when absent). -/
def handlers_of (reg : CallbackRegistry π) (event_type : String) :
    List (Callback π) :=
  (reg.lookup event_type).getD []

/-- The psutil per-disk I/O counter fields `_collect_disk_metrics` reads. -/
structure DiskIOCounters where
  read_count : Int
  write_count : Int
  read_bytes : Int
  write_bytes : Int
  read_time : Int
  write_time : Int

/-- The derived per-disk I/O rates (lines 590-595). -/
structure DiskIORates where
  read_bytes_sec : ℚ
  write_bytes_sec : ℚ
  read_count_sec : ℚ
  write_count_sec : ℚ

/-- The I/O-rate block of `_collect_disk_metrics` (lines 579-595): rates are
computed only when `prev_counters` is truthy (present and non-empty) and
`elapsed_time > 0`, and only for disks present in both snapshots; each rate
is `(counter_t - counter_t-1) / elapsed_time`. -/
def disk_io_rates (prev_counters : Option (List (String × DiskIOCounters)))
    (io_counters : List (String × DiskIOCounters)) (elapsed_time : ℚ) :
    List (String × DiskIORates) :=
  match prev_counters with
  | none => []
  | some prev =>
      if prev.isEmpty = false ∧ 0 < elapsed_time then
        io_counters.filterMap (fun dc =>
          match prev.lookup dc.1 with
          | none => none
          | some p => some (dc.1,
              ⟨((dc.2.read_bytes - p.read_bytes : ℤ) : ℚ) / elapsed_time,
               ((dc.2.write_bytes - p.write_bytes : ℤ) : ℚ) / elapsed_time,
               ((dc.2.read_count - p.read_count : ℤ) : ℚ) / elapsed_time,
               ((dc.2.write_count - p.write_count : ℤ) : ℚ) / elapsed_time⟩))
      else []

/-- The psutil per-interface network counter fields the code reads. -/
structure NetIOCounters where
  bytes_sent : Int
  bytes_recv : Int
  packets_sent : Int
  packets_recv : Int
  errin : Int
  errout : Int
  dropin : Int
  dropout : Int

/-- The derived per-interface network rates (lines 678-683). -/
structure NetIORates where
  bytes_sent_sec : ℚ
  bytes_recv_sec : ℚ
  packets_sent_sec : ℚ
  packets_recv_sec : ℚ

/-- The network-rate block of `_collect_network_metrics` (lines 667-683),
with the same guard and formula as the disk rates. -/
def net_io_rates (prev_counters : Option (List (String × NetIOCounters)))
    (io_counters : List (String × NetIOCounters)) (elapsed_time : ℚ) :
    List (String × NetIORates) :=
  match prev_counters with
  | none => []
  | some prev =>
      if prev.isEmpty = false ∧ 0 < elapsed_time then
        io_counters.filterMap (fun nc =>
          match prev.lookup nc.1 with
          | none => none
          | some p => some (nc.1,
              ⟨((nc.2.bytes_sent - p.bytes_sent : ℤ) : ℚ) / elapsed_time,
               ((nc.2.bytes_recv - p.bytes_recv : ℤ) : ℚ) / elapsed_time,
               ((nc.2.packets_sent - p.packets_sent : ℤ) : ℚ) / elapsed_time,
               ((nc.2.packets_recv - p.packets_recv : ℤ) : ℚ) / elapsed_time⟩))
      else []

/-- What the try-block of `_collect_cpu_metrics` gathers (lines 474-486):
per-cpu usage percentages, and the times/load/stats payloads (opaque to the
collector, which stores them verbatim). -/
structure CpuReading where
  cpu_usage : List ℚ
  cpu_times : Val
  load_avg : Val
  cpu_stats : Val

/-- `MonitoringOperations._collect_cpu_metrics` (lines 468-503): on success
builds the metrics dict (with `cpu_avg = sum/len` when the usage list is
non-empty, else 0); an exception anywhere in the try-block is caught and
yields the error sample.  `now` is the `time.time()` value of the tick. -/
def collect_cpu_metrics (now : ℚ) (attempt : Except String CpuReading) :
    Sample :=
  match attempt with
  | .error e => [("timestamp", .num now), ("error", .str e)]
  | .ok r =>
      let cpu_avg : ℚ :=
        if r.cpu_usage.isEmpty then 0 else r.cpu_usage.sum / r.cpu_usage.length
      [("timestamp", .num now),
       ("usage", .dict [("average", .num cpu_avg),
                        ("per_cpu", .list (r.cpu_usage.map .num))]),
       ("times", r.cpu_times),
       ("load_average", r.load_avg),
       ("stats", r.cpu_stats)]

/-- `MonitoringOperations._collect_memory_metrics` (lines 505-544): the
reading is the pair `(memory_info, swap_info)` of dicts; each field is read
with `.get(key, 0)`. -/
def collect_memory_metrics (now : ℚ)
    (attempt : Except String (Sample × Sample)) : Sample :=
  match attempt with
  | .error e => [("timestamp", .num now), ("error", .str e)]
  | .ok mi =>
      [("timestamp", .num now),
       ("memory", .dict [("total", dictGet mi.1 "total" (.num 0)),
                         ("available", dictGet mi.1 "available" (.num 0)),
                         ("used", dictGet mi.1 "used" (.num 0)),
                         ("free", dictGet mi.1 "free" (.num 0)),
                         ("percent", dictGet mi.1 "percent" (.num 0)),
                         ("buffers", dictGet mi.1 "buffers" (.num 0)),
                         ("cached", dictGet mi.1 "cached" (.num 0)),
                         ("shared", dictGet mi.1 "shared" (.num 0))]),
       ("swap", .dict [("total", dictGet mi.2 "total" (.num 0)),
                       ("used", dictGet mi.2 "used" (.num 0)),
                       ("free", dictGet mi.2 "free" (.num 0)),
                       ("percent", dictGet mi.2 "percent" (.num 0)),
                       ("sin", dictGet mi.2 "sin" (.num 0)),
                       ("sout", dictGet mi.2 "sout" (.num 0))])]

/-- One entry of `storage_ops.list_partitions()` as the collectors read it:
keys may be absent (`"total" in partition` tests, `.get` defaults). -/
structure PartitionInfo where
  device : Option String
  mountpoint : Option String
  fstype : Option String
  total : Option Int
  used : Option Int
  free : Option Int
  percent : Option ℚ

/-- The filter `"total" in partition and partition["total"] > 0`
(line 565 and line 728). -/
def partition_has_usage (p : PartitionInfo) : Bool :=
  match p.total with
  | some t => decide (0 < t)
  | none => false

/-- One usage entry of `_collect_disk_metrics` (lines 566-574). -/
def usage_entry (p : PartitionInfo) : Val :=
  .dict [("device", .str (p.device.getD "")),
         ("mountpoint", .str (p.mountpoint.getD "")),
         ("fstype", .str (p.fstype.getD "")),
         ("total", .num ((p.total.getD 0 : ℤ) : ℚ)),
         ("used", .num ((p.used.getD 0 : ℤ) : ℚ)),
         ("free", .num ((p.free.getD 0 : ℤ) : ℚ)),
         ("percent", .num (p.percent.getD 0))]

/-- `MonitoringOperations._collect_disk_metrics` (lines 546-618): the
reading is `(partitions, io_counters)`; rates come from `disk_io_rates`. -/
def collect_disk_metrics (now : ℚ)
    (prev_counters : Option (List (String × DiskIOCounters)))
    (elapsed_time : ℚ)
    (attempt : Except String
      (List PartitionInfo × List (String × DiskIOCounters))) : Sample :=
  match attempt with
  | .error e => [("timestamp", .num now), ("error", .str e)]
  | .ok r =>
      let usage := (r.1.filter partition_has_usage).map usage_entry
      let io_rates := disk_io_rates prev_counters r.2 elapsed_time
      [("timestamp", .num now),
       ("usage", .list usage),
       ("io_counters", .dict (r.2.map (fun dc =>
          (dc.1, Val.dict
            [("read_count", .num (dc.2.read_count : ℚ)),
             ("write_count", .num (dc.2.write_count : ℚ)),
             ("read_bytes", .num (dc.2.read_bytes : ℚ)),
             ("write_bytes", .num (dc.2.write_bytes : ℚ)),
             ("read_time", .num (dc.2.read_time : ℚ)),
             ("write_time", .num (dc.2.write_time : ℚ))])))),
       ("io_rates", .dict (io_rates.map (fun dr =>
          (dr.1, Val.dict
            [("read_bytes_sec", .num dr.2.read_bytes_sec),
             ("write_bytes_sec", .num dr.2.write_bytes_sec),
             ("read_count_sec", .num dr.2.read_count_sec),
             ("write_count_sec", .num dr.2.write_count_sec)]))))]

/-- One psutil connection as `_collect_network_metrics` inspects it:
socket type and address family constants (on Linux `SOCK_STREAM = 1`,
`SOCK_DGRAM = 2`, `AF_UNIX = 1`) and the status string. -/
structure ConnInfo where
  ctype : Nat
  family : Nat
  status : String

def SOCK_STREAM : Nat := 1

def SOCK_DGRAM : Nat := 2

def AF_UNIX : Nat := 1

/-- The connection-count tally of `_collect_network_metrics`
(lines 640-665): `total` is the list length; each connection bumps one
protocol bucket (elif chain) and possibly one status bucket. -/
structure ConnCounts where
  tcp : Nat
  udp : Nat
  unix : Nat
  other : Nat
  established : Nat
  listening : Nat
  total : Nat

def count_connections (conns : List ConnInfo) : ConnCounts :=
  conns.foldl (fun acc c =>
    let acc :=
      if c.ctype = SOCK_STREAM then { acc with tcp := acc.tcp + 1 }
      else if c.ctype = SOCK_DGRAM then { acc with udp := acc.udp + 1 }
      else if c.family = AF_UNIX then { acc with unix := acc.unix + 1 }
      else { acc with other := acc.other + 1 }
    if c.status = "ESTABLISHED" then
      { acc with established := acc.established + 1 }
    else if c.status = "LISTEN" then { acc with listening := acc.listening + 1 }
    else acc)
    ⟨0, 0, 0, 0, 0, 0, conns.length⟩

/-- `MonitoringOperations._collect_network_metrics` (lines 620-708): the
reading is `(io_counters, connections)`; rates come from `net_io_rates`. -/
def collect_network_metrics (now : ℚ)
    (prev_counters : Option (List (String × NetIOCounters)))
    (elapsed_time : ℚ)
    (attempt : Except String
      (List (String × NetIOCounters) × List ConnInfo)) : Sample :=
  match attempt with
  | .error e => [("timestamp", .num now), ("error", .str e)]
  | .ok r =>
      let cc := count_connections r.2
      let net_rates := net_io_rates prev_counters r.1 elapsed_time
      [("timestamp", .num now),
       ("io_counters", .dict (r.1.map (fun nc =>
          (nc.1, Val.dict
            [("bytes_sent", .num (nc.2.bytes_sent : ℚ)),
             ("bytes_recv", .num (nc.2.bytes_recv : ℚ)),
             ("packets_sent", .num (nc.2.packets_sent : ℚ)),
             ("packets_recv", .num (nc.2.packets_recv : ℚ)),
             ("errin", .num (nc.2.errin : ℚ)),
             ("errout", .num (nc.2.errout : ℚ)),
             ("dropin", .num (nc.2.dropin : ℚ)),
             ("dropout", .num (nc.2.dropout : ℚ))])))),
       ("io_rates", .dict (net_rates.map (fun nr =>
          (nr.1, Val.dict
            [("bytes_sent_sec", .num nr.2.bytes_sent_sec),
             ("bytes_recv_sec", .num nr.2.bytes_recv_sec),
             ("packets_sent_sec", .num nr.2.packets_sent_sec),
             ("packets_recv_sec", .num nr.2.packets_recv_sec)])))),
       ("connections", .dict
          [("tcp", .num (cc.tcp : ℚ)), ("udp", .num (cc.udp : ℚ)),
           ("unix", .num (cc.unix : ℚ)), ("other", .num (cc.other : ℚ)),
           ("established", .num (cc.established : ℚ)),
           ("listening", .num (cc.listening : ℚ)),
           ("total", .num (cc.total : ℚ))])]

/-- What the try-block of `_collect_system_metrics` gathers
(lines 717-742). -/
structure SystemReading where
  cpu_usage : ℚ
  memory_info : Sample
  load_avg : Val
  partitions : List PartitionInfo
  process_count : Nat
  boot_time : ℚ

/-- `MonitoringOperations._collect_system_metrics` (lines 710-760).  The
source calls `time.time()` twice (for `uptime` and for `timestamp`); both
calls are modelled by the single tick value `now`. -/
def collect_system_metrics (now : ℚ) (attempt : Except String SystemReading) :
    Sample :=
  match attempt with
  | .error e => [("timestamp", .num now), ("error", .str e)]
  | .ok r =>
      let mounted := r.partitions.filter partition_has_usage
      let disk_usage := mounted.map (fun p =>
        Val.dict [("mountpoint", .str (p.mountpoint.getD "")),
                  ("percent", .num (p.percent.getD 0))])
      [("timestamp", .num now),
       ("cpu_usage", .num r.cpu_usage),
       ("memory_usage", dictGet r.memory_info "percent" (.num 0)),
       ("memory_available", dictGet r.memory_info "available" (.num 0)),
       ("load_average", r.load_avg),
       ("disk_usage", .list disk_usage),
       ("process_count", .num (r.process_count : ℚ)),
       ("boot_time", .num r.boot_time),
       ("uptime", .num (now - r.boot_time))]

/-- `metrics.get(k, 0)` read as a number; the entries
`_calculate_system_status` reads this way are numbers whenever present. -/
def ratGet (d : Sample) (k : String) : ℚ :=
  match d.lookup k with
  | some (.num q) => q
  | _ => 0

/-- `d.get(k, default)` on a `Val` that is a dict (the per-disk entries of
`disk_usage`). -/
def valDictGet (v : Val) (k : String) (default : Val) : Val :=
  match v with
  | .dict kvs => dictGet kvs k default
  | _ => default

/-- A `Val` read as a number (0 otherwise, matching the `.get(_, 0)`
defaults). -/
def valRat (v : Val) : ℚ :=
  match v with
  | .num q => q
  | _ => 0

/-- `_bytes_to_human` (lines 888-901) renders a byte count as a string; its
binary floating-point `:.2f` formatting is not modelled — no claim inspects
the rendered text, only that it is a function of the value. -/
def bytes_to_human (q : ℚ) : String := toString q

/-- `_format_uptime` (lines 861-886); likewise only the value dependency is
kept. -/
def format_uptime (q : ℚ) : String := toString q

/-- One escalation block of `_calculate_system_status` (e.g. lines 797-803):
`if x > 90` sets Critical, `elif x > 75 and status != "Critical"` sets
Degraded, `elif x > 60 and status not in ["Critical", "Degraded"]` sets
Warning. -/
def status_ladder (x : ℚ) (st : String) : String :=
  if x > 90 then "Critical"
  else if x > 75 ∧ st ≠ "Critical" then "Degraded"
  else if x > 60 ∧ st ≠ "Critical" ∧ st ≠ "Degraded" then "Warning"
  else st

/-- The disk loop of `_calculate_system_status` (lines 813-821), with its
`break` on a critical disk. -/
def status_disks : List ℚ → String → String
  | [], st => st
  | p :: rest, st =>
      if p > 90 then "Critical"
      else if p > 75 ∧ st ≠ "Critical" then status_disks rest "Degraded"
      else if p > 60 ∧ st ≠ "Critical" ∧ st ≠ "Degraded" then
        status_disks rest "Warning"
      else status_disks rest st

/-- The `metrics.get("disk_usage", [])` list (line 786). -/
def disk_items_of (metrics : Sample) : List Val :=
  match dictGet metrics "disk_usage" (.list []) with
  | .list l => l
  | _ => []

/-- The `disk.get("percent", 0)` values the disk loop compares. -/
def disk_percents (disk_items : List Val) : List ℚ :=
  disk_items.map (fun d => valRat (valDictGet d "percent" (.num 0)))

/-- `MonitoringOperations._calculate_system_status` (lines 762-859).  The
`prev_metrics` argument is unused by the source body and omitted; the
try-block cannot fail in the embedding, so the `except` arm (lines 853-859)
is not reachable. -/
def calculate_system_status (now : ℚ) (metrics : Sample) : Sample :=
  let cpu_usage := ratGet metrics "cpu_usage"
  let memory_usage := ratGet metrics "memory_usage"
  let memory_available := ratGet metrics "memory_available"
  let load_avg := dictGet metrics "load_average" (.dict [])
  let disk_items := disk_items_of metrics
  let process_count := ratGet metrics "process_count"
  let uptime := ratGet metrics "uptime"
  let status := "Healthy"
  let status := status_ladder cpu_usage status
  let status := status_ladder memory_usage status
  let status := status_disks (disk_percents disk_items) status
  [("timestamp", .num now),
   ("status", .str status),
   ("cpu", .dict [("usage_percent", .num cpu_usage),
                  ("load_average", load_avg)]),
   ("memory", .dict [("percent", .num memory_usage),
                     ("available", .num memory_available),
                     ("available_human", .str (bytes_to_human memory_available))]),
   ("disks", .list (disk_items.map (fun d =>
      Val.dict [("mountpoint", valDictGet d "mountpoint" (.str "")),
                ("percent", valDictGet d "percent" (.num 0))]))),
   ("processes", .dict [("count", .num process_count)]),
   ("uptime", .dict [("seconds", .num uptime),
                     ("human", .str (format_uptime uptime))])]

/-- The per-tick inputs of `_monitoring_loop` (lines 379-434): the enabled
category list `config.monitoring.metrics`, the tick time, the elapsed time
since the previous tick, each collector's reading-or-exception, and the
previous counter snapshots. -/
structure TickInputs where
  cfg_metrics : List String
  now : ℚ
  elapsed : ℚ
  cpu_attempt : Except String CpuReading
  mem_attempt : Except String (Sample × Sample)
  disk_attempt : Except String
    (List PartitionInfo × List (String × DiskIOCounters))
  net_attempt : Except String
    (List (String × NetIOCounters) × List ConnInfo)
  sys_attempt : Except String SystemReading
  prev_disk : Option (List (String × DiskIOCounters))
  prev_net : Option (List (String × NetIOCounters))

/-- One iteration of the `while` body of `_monitoring_loop` (lines 386-434):
gated per-category collection, store append, and callback publication; then
the unconditional system collection, append and publication, and the
status-snapshot publication under the "status" event type.  Returns the
updated store and the ordered `(event_type, payload)` publications of the
tick. -/
def monitoring_tick (maxMetrics : Nat) (inp : TickInputs)
    (store : MetricsStore Sample) :
    MetricsStore Sample × List (String × Sample) :=
  let acc : MetricsStore Sample × List (String × Sample) := (store, [])
  let acc :=
    if "cpu" ∈ inp.cfg_metrics then
      let m := collect_cpu_metrics inp.now inp.cpu_attempt
      (add_metrics maxMetrics acc.1 "cpu" m, acc.2 ++ [("cpu", m)])
    else acc
  let acc :=
    if "memory" ∈ inp.cfg_metrics then
      let m := collect_memory_metrics inp.now inp.mem_attempt
      (add_metrics maxMetrics acc.1 "memory" m, acc.2 ++ [("memory", m)])
    else acc
  let acc :=
    if "disk" ∈ inp.cfg_metrics then
      let m := collect_disk_metrics inp.now inp.prev_disk inp.elapsed
        inp.disk_attempt
      (add_metrics maxMetrics acc.1 "disk" m, acc.2 ++ [("disk", m)])
    else acc
  let acc :=
    if "network" ∈ inp.cfg_metrics then
      let m := collect_network_metrics inp.now inp.prev_net inp.elapsed
        inp.net_attempt
      (add_metrics maxMetrics acc.1 "network" m, acc.2 ++ [("network", m)])
    else acc
  let sysm := collect_system_metrics inp.now inp.sys_attempt
  let acc := (add_metrics maxMetrics acc.1 "system" sysm,
    acc.2 ++ [("system", sysm)])
  let status := calculate_system_status inp.now sysm
  (acc.1, acc.2 ++ [("status", status)])

/-- An empty metrics store (a freshly constructed monitor). -/
def store0 : MetricsStore Sample := ⟨[], [], [], [], []⟩

/-- A concrete tick: all four optional categories enabled, the cpu collector
raising, the others succeeding on minimal readings. -/
def tick_inputs_ex : TickInputs :=
  ⟨["cpu", "memory", "disk", "network"], 100, 5,
   .error "boom", .ok ([], []), .ok ([], []), .ok ([], []),
   .ok ⟨0, [], .dict [], [], 0, 0⟩, none, none⟩

/-- A concrete tick with no optional categories enabled and a successful
system collection. -/
def c8_inputs : TickInputs :=
  ⟨[], 100, 5, .error "x", .ok ([], []), .ok ([], []), .ok ([], []),
   .ok ⟨0, [], .dict [], [], 0, 0⟩, none, none⟩

/-- For `1 ≤ C`, Python `xs[-C:]` is `drop (len - C)`. -/
theorem pySliceFrom_neg (C : Nat) (hC : 1 ≤ C) (xs : List α) :
    pySliceFrom (-(C : Int)) xs = xs.drop (xs.length - C) := by
  unfold pySliceFrom
  rcases Nat.lt_or_ge xs.length C with h | h
  · rw [if_pos (by omega)]
    congr 1
    omega
  · rw [if_pos (by omega)]
    congr 1
    omega

theorem add_metrics_step_eq_lastN (C : Nat) (hC : 1 ≤ C) (series : List α) (m : α) :
    add_metrics_step C series m
      = (series ++ [m]).drop ((series ++ [m]).length - C) := by
  unfold add_metrics_step
  by_cases hlen : (series ++ [m]).length > C
  · rw [if_pos hlen, pySliceFrom_neg C hC]
  · rw [if_neg hlen]
    have : (series ++ [m]).length - C = 0 := by omega
    rw [this, List.drop_zero]

theorem lastN_absorb (C : Nat) (l xs : List α) :
    ((l.drop (l.length - C)) ++ xs).drop
        (((l.drop (l.length - C)) ++ xs).length - C)
      = (l ++ xs).drop ((l ++ xs).length - C) := by
  rcases Nat.lt_or_ge l.length C with h | h
  · have : l.length - C = 0 := by omega
    rw [this, List.drop_zero]
  · have hk : l.length - C ≤ l.length := Nat.sub_le _ _
    rw [← List.drop_append_of_le_length hk, List.drop_drop]
    congr 1
    simp [List.length_drop, List.length_append]
    omega

theorem foldl_add_metrics_step (C : Nat) (hC : 1 ≤ C) (xs : List α) :
    ∀ acc : List α, acc.length ≤ C →
      xs.foldl (add_metrics_step C) acc
        = (acc ++ xs).drop ((acc ++ xs).length - C) := by
  induction xs with
  | nil =>
      intro acc hacc
      have h0 : acc.length - C = 0 := by omega
      simp [h0]
  | cons x xs ih =>
      intro acc hacc
      rw [List.foldl_cons]
      have hstep := add_metrics_step_eq_lastN C hC acc x
      have hlen : (add_metrics_step C acc x).length ≤ C := by
        rw [hstep]
        simp [List.length_drop, List.length_append]
        omega
      rw [ih _ hlen, hstep, lastN_absorb C (acc ++ [x]) xs]
      simp [List.append_assoc]

/-- **C1.** For every sequence of N appends to one category series with
capacity `C = 3600 / interval` (interval in the sane range 1..3600 s, as in
`self.max_metrics = 3600 // self.monitoring_interval`, lines 65-66), the
resulting series has length `min N C` and consists of exactly the most
recent `C` of the appended samples, in insertion (chronological) order with
the oldest evicted first. -/
theorem metric_series_bounded_history (interval : Nat)
    (h1 : 1 ≤ interval) (h2 : interval ≤ 3600) (samples : List α) :
    (samples.foldl (add_metrics_step (3600 / interval)) []).length
        = min samples.length (3600 / interval) ∧
    samples.foldl (add_metrics_step (3600 / interval)) []
        = samples.drop (samples.length - 3600 / interval) := by
  have hC : 1 ≤ 3600 / interval := (Nat.one_le_div_iff (by omega)).mpr h2
  have h := foldl_add_metrics_step (3600 / interval) hC samples [] (by simp)
  simp at h
  refine ⟨?_, h⟩
  rw [h]
  simp [List.length_drop]
  omega

/-- Witness for C1: interval 1800 s gives capacity 2; appending three samples
retains the last two, in order. -/
theorem metric_series_bounded_history_witness :
    (([1, 2, 3] : List ℕ).foldl (add_metrics_step (3600 / 1800)) []).length
        = min ([1, 2, 3] : List ℕ).length (3600 / 1800) ∧
    ([1, 2, 3] : List ℕ).foldl (add_metrics_step (3600 / 1800)) []
        = ([1, 2, 3] : List ℕ).drop (([1, 2, 3] : List ℕ).length - 3600 / 1800) :=
  metric_series_bounded_history 1800 (by norm_num) (by norm_num) [1, 2, 3]

theorem read_recent (xs : List α) (count : Int) (h : 1 ≤ count) :
    (if xs.isEmpty then [] else pySliceFrom (-count) xs)
      = xs.drop (xs.length - count.toNat) := by
  by_cases hx : xs.isEmpty
  · rw [if_pos hx]
    rw [List.isEmpty_iff] at hx
    simp [hx]
  · rw [if_neg hx]
    unfold pySliceFrom
    rw [if_pos (by omega)]
    congr 1
    omega

/-- **C6 counterexample.** With a single stored cpu sample and `count = 0`,
the read returns the whole series — Python `xs[-0:]` is `xs[0:]` — rather
than the most recent 0 samples, so the claim as stated (for every count)
fails at count 0. -/
theorem get_metrics_count_zero_cex :
    get_metrics (MetricsStore.mk [7] [] [] [] [] : MetricsStore ℕ) "cpu" 0 = [7] ∧
    (get_metrics (MetricsStore.mk [7] [] [] [] [] : MetricsStore ℕ) "cpu" 0).length ≠ 0 := by
  constructor
  · rfl
  · decide

/-- **C6 (amended).** For every store state, every category, and every count
≥ 1, the read returns the most recent `min count length` samples of that
category's series, in chronological order (oldest of the selected window
first), and hence the empty sequence when the category has no samples yet or
is unknown.  The embedding is pure, so the store is not mutated.  (For
count ≤ 0 the code instead applies Python slice semantics — `xs[-0:]` is the
whole series — so the claim is restricted to positive counts.) -/
theorem get_metrics_recent_window (store : MetricsStore α) (category : String)
    (count : Int) (h : 1 ≤ count) :
    get_metrics store category count
      = (series_of store category).drop
          ((series_of store category).length - count.toNat) := by
  unfold get_metrics series_of get_cpu_metrics get_memory_metrics
    get_disk_metrics get_network_metrics get_system_metrics
  by_cases h1 : category = "cpu"
  · simp only [h1, if_true, eq_self_iff_true]
    exact read_recent _ _ h
  rw [if_neg h1, if_neg h1]
  by_cases h2 : category = "memory"
  · simp only [h2, if_true, eq_self_iff_true]
    exact read_recent _ _ h
  rw [if_neg h2, if_neg h2]
  by_cases h3 : category = "disk"
  · simp only [h3, if_true, eq_self_iff_true]
    exact read_recent _ _ h
  rw [if_neg h3, if_neg h3]
  by_cases h4 : category = "network"
  · simp only [h4, if_true, eq_self_iff_true]
    exact read_recent _ _ h
  rw [if_neg h4, if_neg h4]
  by_cases h5 : category = "system"
  · simp only [h5, if_true, eq_self_iff_true]
    exact read_recent _ _ h
  rw [if_neg h5, if_neg h5]
  simp

/-- Witness for C6 (amended): three stored cpu samples, count 2, yields the
last two in order. -/
theorem get_metrics_recent_window_witness :
    get_metrics (MetricsStore.mk [1, 2, 3] [] [] [] [] : MetricsStore ℕ) "cpu" 2
      = (series_of (MetricsStore.mk [1, 2, 3] [] [] [] [] : MetricsStore ℕ) "cpu").drop
          ((series_of (MetricsStore.mk [1, 2, 3] [] [] [] [] : MetricsStore ℕ) "cpu").length
            - (2 : Int).toNat) :=
  get_metrics_recent_window _ "cpu" 2 (by norm_num)

theorem health_check_step_issues (critCond warnCond : Prop) [Decidable critCond]
    [Decidable warnCond] (ci wi : Issue) (st : HealthState) :
    (health_check_step critCond warnCond ci wi st).issues
      = st.issues ++ cond_issues critCond warnCond ci wi := by
  unfold health_check_step cond_issues
  split_ifs <;> simp

theorem health_check_step_inv (critCond warnCond : Prop) [Decidable critCond]
    [Decidable warnCond] (ci wi : Issue)
    (hci : ci.severity = "critical") (hwi : wi.severity = "warning")
    (st : HealthState)
    (h1 : st.sev = max_sev st.issues) (h2 : st.status = status_of_sev st.sev) :
    (health_check_step critCond warnCond ci wi st).sev
        = max_sev (health_check_step critCond warnCond ci wi st).issues ∧
    (health_check_step critCond warnCond ci wi st).status
        = status_of_sev (health_check_step critCond warnCond ci wi st).sev := by
  unfold health_check_step
  split_ifs with hc hw hsev
  · constructor
    · simp [max_sev, List.any_append, hci]
    · simp [status_of_sev]
  · cases hA : st.issues.any (fun i => i.severity == "critical") with
    | true =>
        simp [max_sev, hA] at h1
        omega
    | false =>
        cases hB : st.issues.any (fun i => i.severity == "warning") with
        | true =>
            simp [max_sev, hA, hB] at h1
            omega
        | false =>
            constructor
            · simp [max_sev, List.any_append, hA, hB, hwi]
            · simp [status_of_sev]
  · cases hA : st.issues.any (fun i => i.severity == "critical") with
    | true =>
        simp [max_sev, hA] at h1
        constructor
        · simp [max_sev, List.any_append, hA, h1]
        · exact h2
    | false =>
        cases hB : st.issues.any (fun i => i.severity == "warning") with
        | true =>
            simp [max_sev, hA, hB] at h1
            constructor
            · simp [max_sev, List.any_append, hA, hB, hwi, h1]
            · exact h2
        | false =>
            simp [max_sev, hA, hB] at h1
            omega
  · exact ⟨h1, h2⟩

theorem foldl_health_step_issues (disks : List (String × ℚ)) (st : HealthState) :
    (disks.foldl (fun st d =>
        health_check_step (d.2 > 90) (d.2 > 75)
          ⟨"disk", "critical", some d.1⟩ ⟨"disk", "warning", some d.1⟩ st) st).issues
      = st.issues ++ disks.flatMap (fun d =>
          cond_issues (d.2 > 90) (d.2 > 75)
            ⟨"disk", "critical", some d.1⟩ ⟨"disk", "warning", some d.1⟩) := by
  induction disks generalizing st with
  | nil => simp
  | cons d rest ih =>
      rw [List.foldl_cons, ih, health_check_step_issues]
      simp [List.append_assoc]

theorem foldl_health_step_inv (disks : List (String × ℚ)) (st : HealthState)
    (h1 : st.sev = max_sev st.issues) (h2 : st.status = status_of_sev st.sev) :
    (disks.foldl (fun st d =>
        health_check_step (d.2 > 90) (d.2 > 75)
          ⟨"disk", "critical", some d.1⟩ ⟨"disk", "warning", some d.1⟩ st) st).sev
      = max_sev (disks.foldl (fun st d =>
          health_check_step (d.2 > 90) (d.2 > 75)
            ⟨"disk", "critical", some d.1⟩ ⟨"disk", "warning", some d.1⟩ st) st).issues ∧
    (disks.foldl (fun st d =>
        health_check_step (d.2 > 90) (d.2 > 75)
          ⟨"disk", "critical", some d.1⟩ ⟨"disk", "warning", some d.1⟩ st) st).status
      = status_of_sev (disks.foldl (fun st d =>
          health_check_step (d.2 > 90) (d.2 > 75)
            ⟨"disk", "critical", some d.1⟩ ⟨"disk", "warning", some d.1⟩ st) st).sev := by
  induction disks generalizing st with
  | nil => exact ⟨h1, h2⟩
  | cons d rest ih =>
      rw [List.foldl_cons]
      have h := health_check_step_inv (d.2 > 90) (d.2 > 75)
        ⟨"disk", "critical", some d.1⟩ ⟨"disk", "warning", some d.1⟩ rfl rfl st h1 h2
      exact ih _ h.1 h.2

theorem check_system_health_issues (now : ℚ) (s : StatusInput) :
    (check_system_health now s).issues = expected_issues s := by
  simp only [check_system_health, expected_issues]
  rw [health_check_step_issues, foldl_health_step_issues,
    health_check_step_issues, health_check_step_issues]
  simp [expected_issues.disks_issues, List.append_assoc]

theorem check_system_health_status (now : ℚ) (s : StatusInput) :
    (check_system_health now s).status
      = status_of_sev (max_sev (check_system_health now s).issues) := by
  simp only [check_system_health]
  have h0 : (⟨"Healthy", 0, []⟩ : HealthState).sev
      = max_sev (⟨"Healthy", 0, []⟩ : HealthState).issues := by
    simp [max_sev]
  have h0b : (⟨"Healthy", 0, []⟩ : HealthState).status
      = status_of_sev (⟨"Healthy", 0, []⟩ : HealthState).sev := by
    simp [status_of_sev]
  have hA := health_check_step_inv (s.cpu_usage > 90) (s.cpu_usage > 75)
    ⟨"cpu", "critical", none⟩ ⟨"cpu", "warning", none⟩ rfl rfl _ h0 h0b
  have hB := health_check_step_inv (s.memory_percent > 90) (s.memory_percent > 75)
    ⟨"memory", "critical", none⟩ ⟨"memory", "warning", none⟩ rfl rfl _ hA.1 hA.2
  have hC := foldl_health_step_inv s.disks _ hB.1 hB.2
  have hD := health_check_step_inv (s.load_1min_per_cpu > 3) (s.load_1min_per_cpu > 1.5)
    ⟨"load", "critical", none⟩ ⟨"load", "warning", none⟩ rfl rfl _ hC.1 hC.2
  rw [hD.2, hD.1]

theorem any_cond_issues (c w : Prop) [Decidable c] [Decidable w]
    (ci wi : Issue) (f : Issue → Bool) :
    ((cond_issues c w ci wi).any f = true)
      ↔ ((c ∧ f ci = true) ∨ (¬ c ∧ w ∧ f wi = true)) := by
  unfold cond_issues
  split_ifs with hc hw <;> simp_all

theorem disks_issues_comp_false (disks : List (String × ℚ)) (f : Issue → Bool)
    (hf : ∀ sev m, f ⟨"disk", sev, m⟩ = false) :
    (expected_issues.disks_issues disks).any f = false := by
  induction disks with
  | nil => simp [expected_issues.disks_issues]
  | cons d rest ih =>
      unfold expected_issues.disks_issues at ih ⊢
      simp only [List.flatMap_cons, List.any_append, ih, Bool.or_false]
      unfold cond_issues
      split_ifs <;> simp [hf]

theorem disks_issues_sev (disks : List (String × ℚ)) (m : String) (sev : String) :
    ((expected_issues.disks_issues disks).any
        (fun i => i.component == "disk" && i.severity == sev && i.mount == some m)
          = true)
      ↔ ∃ p, (m, p) ∈ disks ∧
          ((sev = "critical" ∧ 90 < p) ∨ (sev = "warning" ∧ ¬ 90 < p ∧ 75 < p)) := by
  induction disks with
  | nil => simp [expected_issues.disks_issues]
  | cons d rest ih =>
      unfold expected_issues.disks_issues at ih ⊢
      simp only [List.flatMap_cons, List.any_append, Bool.or_eq_true, ih,
        any_cond_issues]
      constructor
      · rintro (h | h)
        · rcases h with ⟨hc, hf⟩ | ⟨hnc, hw, hf⟩
          · simp at hf
            rcases hf with ⟨hsev, hm⟩
            subst hm
            exact ⟨d.2, by simp, Or.inl ⟨hsev.symm, hc⟩⟩
          · simp at hf
            rcases hf with ⟨hsev, hm⟩
            subst hm
            exact ⟨d.2, by simp, Or.inr ⟨hsev.symm, hnc, hw⟩⟩
        · rcases h with ⟨p, hp, hcase⟩
          exact ⟨p, List.mem_cons_of_mem _ hp, hcase⟩
      · rintro ⟨p, hp, hcase⟩
        rcases List.mem_cons.mp hp with heq | hmem
        · have hm : m = d.1 := by
            have := congrArg Prod.fst heq
            simpa using this
          have hp2 : p = d.2 := by
            have := congrArg Prod.snd heq
            simpa using this
          rcases hcase with ⟨hsev, hgt⟩ | ⟨hsev, hngt, hgt⟩
          · exact Or.inl (Or.inl ⟨hp2 ▸ hgt, by simp [hsev, hm]⟩)
          · exact Or.inl (Or.inr ⟨hp2 ▸ hngt, hp2 ▸ hgt, by simp [hsev, hm]⟩)
        · exact Or.inr ⟨p, hmem, hcase⟩

theorem expected_cpu (s : StatusInput) :
    (has_issue (expected_issues s) "cpu" "critical" = true ↔ 90 < s.cpu_usage) ∧
    (has_issue (expected_issues s) "cpu" "warning" = true
      ↔ (75 < s.cpu_usage ∧ s.cpu_usage ≤ 90)) ∧
    (has_component (expected_issues s) "cpu" = false ↔ s.cpu_usage ≤ 75) := by
  refine ⟨?_, ?_, ?_⟩
  · have hd := disks_issues_comp_false s.disks
      (fun i => i.component == "cpu" && i.severity == "critical")
      (fun sev m => by simp)
    simp only [has_issue, expected_issues, List.any_append, Bool.or_eq_true,
      any_cond_issues, hd]
    simp
  · have hd := disks_issues_comp_false s.disks
      (fun i => i.component == "cpu" && i.severity == "warning")
      (fun sev m => by simp)
    simp only [has_issue, expected_issues, List.any_append, Bool.or_eq_true,
      any_cond_issues, hd]
    simp [not_lt]
    exact and_comm
  · rw [← not_iff_not, Bool.not_eq_false, not_le]
    have hd := disks_issues_comp_false s.disks
      (fun i => i.component == "cpu")
      (fun sev m => by simp)
    simp only [has_component, expected_issues, List.any_append, Bool.or_eq_true,
      any_cond_issues, hd]
    simp [not_lt]
    constructor
    · rintro (h | h)
      · linarith
      · exact h.2
    · intro h
      rcases lt_or_le 90 s.cpu_usage with h9 | h9
      · exact Or.inl h9
      · exact Or.inr ⟨by linarith, h⟩

theorem expected_memory (s : StatusInput) :
    (has_issue (expected_issues s) "memory" "critical" = true
      ↔ 90 < s.memory_percent) ∧
    (has_issue (expected_issues s) "memory" "warning" = true
      ↔ (75 < s.memory_percent ∧ s.memory_percent ≤ 90)) ∧
    (has_component (expected_issues s) "memory" = false
      ↔ s.memory_percent ≤ 75) := by
  refine ⟨?_, ?_, ?_⟩
  · have hd := disks_issues_comp_false s.disks
      (fun i => i.component == "memory" && i.severity == "critical")
      (fun sev m => by simp)
    simp only [has_issue, expected_issues, List.any_append, Bool.or_eq_true,
      any_cond_issues, hd]
    simp
  · have hd := disks_issues_comp_false s.disks
      (fun i => i.component == "memory" && i.severity == "warning")
      (fun sev m => by simp)
    simp only [has_issue, expected_issues, List.any_append, Bool.or_eq_true,
      any_cond_issues, hd]
    simp [not_lt]
    exact and_comm
  · rw [← not_iff_not, Bool.not_eq_false, not_le]
    have hd := disks_issues_comp_false s.disks
      (fun i => i.component == "memory")
      (fun sev m => by simp)
    simp only [has_component, expected_issues, List.any_append, Bool.or_eq_true,
      any_cond_issues, hd]
    simp [not_lt]
    constructor
    · rintro (h | h)
      · linarith
      · exact h.2
    · intro h
      rcases lt_or_le 90 s.memory_percent with h9 | h9
      · exact Or.inl h9
      · exact Or.inr ⟨by linarith, h⟩

theorem expected_load (s : StatusInput) :
    (has_issue (expected_issues s) "load" "critical" = true
      ↔ 3 < s.load_1min_per_cpu) ∧
    (has_issue (expected_issues s) "load" "warning" = true
      ↔ ((1.5 : ℚ) < s.load_1min_per_cpu ∧ s.load_1min_per_cpu ≤ 3)) ∧
    (has_component (expected_issues s) "load" = false
      ↔ s.load_1min_per_cpu ≤ (1.5 : ℚ)) := by
  refine ⟨?_, ?_, ?_⟩
  · have hd := disks_issues_comp_false s.disks
      (fun i => i.component == "load" && i.severity == "critical")
      (fun sev m => by simp)
    simp only [has_issue, expected_issues, List.any_append, Bool.or_eq_true,
      any_cond_issues, hd]
    simp
  · have hd := disks_issues_comp_false s.disks
      (fun i => i.component == "load" && i.severity == "warning")
      (fun sev m => by simp)
    simp only [has_issue, expected_issues, List.any_append, Bool.or_eq_true,
      any_cond_issues, hd]
    simp [not_lt]
    exact and_comm
  · rw [← not_iff_not, Bool.not_eq_false, not_le]
    have hd := disks_issues_comp_false s.disks
      (fun i => i.component == "load")
      (fun sev m => by simp)
    simp only [has_component, expected_issues, List.any_append, Bool.or_eq_true,
      any_cond_issues, hd]
    simp [not_lt]
    constructor
    · rintro (h | h)
      · linarith
      · exact h.2
    · intro h
      rcases lt_or_le 3 s.load_1min_per_cpu with h9 | h9
      · exact Or.inl h9
      · exact Or.inr ⟨by linarith, h⟩

theorem expected_disk (s : StatusInput) (m : String) :
    (disk_issue (expected_issues s) "critical" m = true
      ↔ ∃ p, (m, p) ∈ s.disks ∧ 90 < p) ∧
    (disk_issue (expected_issues s) "warning" m = true
      ↔ ∃ p, (m, p) ∈ s.disks ∧ 75 < p ∧ p ≤ 90) := by
  constructor
  · simp only [disk_issue, expected_issues, List.any_append, Bool.or_eq_true,
      any_cond_issues, disks_issues_sev]
    simp
  · simp only [disk_issue, expected_issues, List.any_append, Bool.or_eq_true,
      any_cond_issues, disks_issues_sev]
    simp [not_lt]
    constructor
    · rintro ⟨p, hp, h1, h2⟩
      exact ⟨p, hp, h2, h1⟩
    · rintro ⟨p, hp, h1, h2⟩
      exact ⟨p, hp, h2, h1⟩

theorem expected_issues_91 :
    expected_issues ⟨91, 0, [], 0⟩ = [⟨"cpu", "critical", none⟩] := by
  unfold expected_issues expected_issues.disks_issues cond_issues
  rw [if_pos (by norm_num), if_neg (by norm_num), if_neg (by norm_num),
    if_neg (by norm_num), if_neg (by norm_num)]
  simp

theorem expected_issues_76 :
    expected_issues ⟨76, 0, [], 0⟩ = [⟨"cpu", "warning", none⟩] := by
  unfold expected_issues expected_issues.disks_issues cond_issues
  rw [if_neg (by norm_num), if_pos (by norm_num), if_neg (by norm_num),
    if_neg (by norm_num), if_neg (by norm_num), if_neg (by norm_num)]
  simp

theorem expected_issues_74 :
    expected_issues ⟨74, 0, [], 0⟩ = [] := by
  unfold expected_issues expected_issues.disks_issues cond_issues
  rw [if_neg (by norm_num), if_neg (by norm_num), if_neg (by norm_num),
    if_neg (by norm_num), if_neg (by norm_num), if_neg (by norm_num)]
  simp

/-- **C2.** `check_system_health` reports a cpu issue of severity critical
iff cpu usage > 90, of severity warning iff 75 < usage ≤ 90, and no cpu
issue iff usage ≤ 75; analogously for memory percent, for each mount's disk
percent, and for 1-minute load per cpu with thresholds 3.0/1.5; the overall
status is the maximum severity across all triggered checks (Critical >
Warning > Healthy) independent of check order; and at the boundaries,
cpu = 91 yields Critical with a cpu issue, cpu = 76 yields Warning, cpu = 74
yields no cpu issue. -/
theorem check_system_health_thresholds (now : ℚ) (s : StatusInput) :
    (has_issue (check_system_health now s).issues "cpu" "critical" = true
      ↔ 90 < s.cpu_usage) ∧
    (has_issue (check_system_health now s).issues "cpu" "warning" = true
      ↔ (75 < s.cpu_usage ∧ s.cpu_usage ≤ 90)) ∧
    (has_component (check_system_health now s).issues "cpu" = false
      ↔ s.cpu_usage ≤ 75) ∧
    (has_issue (check_system_health now s).issues "memory" "critical" = true
      ↔ 90 < s.memory_percent) ∧
    (has_issue (check_system_health now s).issues "memory" "warning" = true
      ↔ (75 < s.memory_percent ∧ s.memory_percent ≤ 90)) ∧
    (has_component (check_system_health now s).issues "memory" = false
      ↔ s.memory_percent ≤ 75) ∧
    (∀ m : String,
      (disk_issue (check_system_health now s).issues "critical" m = true
        ↔ ∃ p, (m, p) ∈ s.disks ∧ 90 < p) ∧
      (disk_issue (check_system_health now s).issues "warning" m = true
        ↔ ∃ p, (m, p) ∈ s.disks ∧ 75 < p ∧ p ≤ 90)) ∧
    (has_issue (check_system_health now s).issues "load" "critical" = true
      ↔ 3 < s.load_1min_per_cpu) ∧
    (has_issue (check_system_health now s).issues "load" "warning" = true
      ↔ ((1.5 : ℚ) < s.load_1min_per_cpu ∧ s.load_1min_per_cpu ≤ 3)) ∧
    (has_component (check_system_health now s).issues "load" = false
      ↔ s.load_1min_per_cpu ≤ (1.5 : ℚ)) ∧
    ((check_system_health now s).status
      = status_of_sev (max_sev (check_system_health now s).issues)) ∧
    ((check_system_health now ⟨91, 0, [], 0⟩).status = "Critical"
      ∧ has_issue (check_system_health now ⟨91, 0, [], 0⟩).issues
          "cpu" "critical" = true) ∧
    ((check_system_health now ⟨76, 0, [], 0⟩).status = "Warning") ∧
    (has_component (check_system_health now ⟨74, 0, [], 0⟩).issues
        "cpu" = false) := by
  rw [check_system_health_issues]
  refine ⟨(expected_cpu s).1, (expected_cpu s).2.1, (expected_cpu s).2.2,
    (expected_memory s).1, (expected_memory s).2.1, (expected_memory s).2.2,
    fun m => expected_disk s m,
    (expected_load s).1, (expected_load s).2.1, (expected_load s).2.2,
    ?_, ?_, ?_, ?_⟩
  · rw [← check_system_health_issues]
    exact check_system_health_status now s
  · constructor
    · rw [check_system_health_status, check_system_health_issues,
        expected_issues_91]
      decide
    · rw [check_system_health_issues, expected_issues_91]
      decide
  · rw [check_system_health_status, check_system_health_issues,
      expected_issues_76]
    decide
  · rw [check_system_health_issues, expected_issues_74]
    decide

/-- Witness for C2 at a concrete status input: one mount at 95 percent disk
usage yields a critical disk issue for that mount and overall Critical. -/
theorem check_system_health_thresholds_witness :
    disk_issue (check_system_health 0 ⟨50, 50, [("/", 95)], 1⟩).issues
        "critical" "/" = true ∧
    (check_system_health 0 ⟨50, 50, [("/", 95)], 1⟩).status = "Critical" := by
  constructor
  · refine ((check_system_health_thresholds 0 ⟨50, 50, [("/", 95)], 1⟩).2.2.2.2.2.2.1
      "/").1.mpr ⟨95, ?_, ?_⟩
    · simp
    · norm_num
  · rw [(check_system_health_thresholds 0 ⟨50, 50, [("/", 95)], 1⟩).2.2.2.2.2.2.2.2.2.2.1,
      check_system_health_issues]
    have h : expected_issues ⟨50, 50, [("/", 95)], 1⟩
        = [⟨"disk", "critical", some "/"⟩] := by
      unfold expected_issues expected_issues.disks_issues cond_issues
      rw [if_neg (by norm_num), if_neg (by norm_num), if_neg (by norm_num),
        if_neg (by norm_num), if_neg (by norm_num), if_neg (by norm_num)]
      simp only [List.flatMap_cons, List.flatMap_nil]
      rw [if_pos (by norm_num)]
      simp
    rw [h]
    decide

/-- **C3 counterexample.** From the running state, if the first join times
out — the worker is mid-`time.sleep(interval)` with interval exceeding the
5-second grace period, so it has not yet re-checked the stop flag — and the
worker then wakes and exits so the second join succeeds, `stop()` twice
returns (false, true), not the claimed (true, false); after the first stop
the thread is still alive (the ShutdownTimeout path, lines 110-115). -/
theorem stop_twice_join_timeout_cex :
    (stop_monitoring false ⟨true, true, false⟩).1 = false ∧
    (stop_monitoring false ⟨true, true, false⟩).2.thread_alive = true ∧
    (stop_monitoring true
      (stop_monitoring false ⟨true, true, false⟩).2).1 = true :=
  ⟨rfl, rfl, rfl⟩

/-- **C3 (amended).** From the stopped state with monitoring enabled,
`start()` twice returns (true, false).  From the running state, `stop()`
twice returns (true, false) whenever each bounded join observes the worker
exit within the 5-second grace period (e.g. the configured interval is
below it); a timed-out join instead makes `stop()` return false with the
worker still running.  `start()` returns false exactly when monitoring is
disabled or already running, and `stop()` returns false when not running,
whatever the join outcome — in all cases a boolean result, never an
exception (the embedding is total). -/
theorem start_stop_idempotent (s t : MonitorState)
    (hs1 : s.thread_alive = false) (hs2 : s.monitoring_enabled = true)
    (ht : t.thread_alive = true) :
    ((start_monitoring s).1 = true
      ∧ (start_monitoring (start_monitoring s).2).1 = false) ∧
    ((stop_monitoring true t).1 = true
      ∧ (stop_monitoring true (stop_monitoring true t).2).1 = false) ∧
    ((stop_monitoring false t).1 = false
      ∧ (stop_monitoring false t).2.thread_alive = true) ∧
    (∀ u : MonitorState, (start_monitoring u).1 = false
      ↔ (u.thread_alive = true ∨ u.monitoring_enabled = false)) ∧
    (∀ (j : Bool) (u : MonitorState), u.thread_alive = false
      → (stop_monitoring j u).1 = false) := by
  refine ⟨?_, ?_, ?_, ?_, ?_⟩
  · constructor <;> simp [start_monitoring, hs1, hs2]
  · constructor <;> simp [stop_monitoring, ht]
  · constructor <;> simp [stop_monitoring, ht]
  · intro u
    cases h1 : u.thread_alive <;> cases h2 : u.monitoring_enabled <;>
      simp [start_monitoring, h1, h2]
  · intro j u hu
    simp [stop_monitoring, hu]

/-- Witness for C3 (amended) at concrete states: enabled and stopped for
the start pair, running for the stop pairs. -/
theorem start_stop_idempotent_witness :
    ((start_monitoring ⟨true, false, false⟩).1 = true
      ∧ (start_monitoring (start_monitoring ⟨true, false, false⟩).2).1 = false) ∧
    ((stop_monitoring true ⟨true, true, false⟩).1 = true
      ∧ (stop_monitoring true
          (stop_monitoring true ⟨true, true, false⟩).2).1 = false) ∧
    ((stop_monitoring false ⟨true, true, false⟩).1 = false
      ∧ (stop_monitoring false ⟨true, true, false⟩).2.thread_alive = true) ∧
    (∀ u : MonitorState, (start_monitoring u).1 = false
      ↔ (u.thread_alive = true ∨ u.monitoring_enabled = false)) ∧
    (∀ (j : Bool) (u : MonitorState), u.thread_alive = false
      → (stop_monitoring j u).1 = false) :=
  start_stop_idempotent ⟨true, false, false⟩ ⟨true, true, false⟩ rfl rfl rfl

/-- **C4 (code bug).** In every reachable state — any interval, monitor
state and store, with the caller not yet holding the lock — the monitoring
status operation deadlocks instead of returning the status dictionary:
`get_monitoring_status` holds the non-reentrant `monitoring_lock` when it
calls `is_monitoring_running`, which blocks re-acquiring it, so the call
never terminates (`none`). -/
theorem get_monitoring_status_deadlocks (interval : Nat) (s : MonitorState)
    (store : MetricsStore α) :
    get_monitoring_status false interval s store = none :=
  rfl

theorem run_callbacks_eq_map (cbs : List (Callback π)) (data : π) :
    run_callbacks cbs data = cbs.map (fun cb => cb data) := by
  induction cbs with
  | nil => rfl
  | cons cb rest ih => simp [run_callbacks, ih]

theorem register_callback_lookup (reg : CallbackRegistry π) (et : String)
    (cb : Callback π) :
    (register_callback reg et cb).lookup et
      = some ((reg.lookup et).getD [] ++ [cb]) := by
  induction reg with
  | nil => simp [register_callback]
  | cons p rest ih =>
      rcases p with ⟨k, cbs⟩
      by_cases hk : k = et
      · subst hk
        simp [register_callback]
      · rw [register_callback]
        rw [if_neg hk]
        have hbeq : (et == k) = false := by
          simp [hk]
          intro h
          exact hk h.symm
        simp [List.lookup, hbeq, ih]

/-- **C9.** Publishing a payload for an event category invokes every handler
registered for that category, in registration order — the invocation trace
has one entry per registered handler and its i-th entry is the i-th
handler's outcome on the payload, whether or not earlier handlers raised
(a raise is caught, so it never prevents a later handler or fails the
publish) — and registering a handler appends it to that category's list, so
list order is registration order. -/
theorem publish_invokes_all_in_order (reg : CallbackRegistry π)
    (event_type : String) (data : π) :
    ((trigger_callbacks reg event_type data).length
        = (handlers_of reg event_type).length) ∧
    (∀ i : Nat, (trigger_callbacks reg event_type data)[i]?
        = ((handlers_of reg event_type)[i]?).map (fun cb => cb data)) ∧
    (∀ cb : Callback π,
      handlers_of (register_callback reg event_type cb) event_type
        = handlers_of reg event_type ++ [cb]) := by
  have htr : trigger_callbacks reg event_type data
      = (handlers_of reg event_type).map (fun cb => cb data) := by
    unfold trigger_callbacks handlers_of
    cases h : reg.lookup event_type with
    | none => simp
    | some cbs => simp [run_callbacks_eq_map]
  refine ⟨?_, ?_, ?_⟩
  · rw [htr, List.length_map]
  · intro i
    rw [htr, List.getElem?_map]
  · intro cb
    unfold handlers_of
    rw [register_callback_lookup]
    simp

/-- **C7.** Each disk and network rate field equals
`(counter_t - counter_t-1) / dt` for every pair of consecutive snapshots
with elapsed time dt > 0 (for every device present in both snapshots), all
rate fields are absent when there is no previous snapshot (first tick) or
dt ≤ 0, and concretely a read_bytes increase of 1000000 over dt = 10
seconds yields read_bytes_sec = 100000. -/
theorem io_rates_spec :
    (∀ (io : List (String × DiskIOCounters)) (dt : ℚ),
        disk_io_rates none io dt = []) ∧
    (∀ (prev io : List (String × DiskIOCounters)) (dt : ℚ), dt ≤ 0 →
        disk_io_rates (some prev) io dt = []) ∧
    (∀ (prev io : List (String × DiskIOCounters)) (dt : ℚ)
        (disk : String) (c p : DiskIOCounters), 0 < dt → (disk, c) ∈ io →
        prev.lookup disk = some p →
        (disk, (⟨((c.read_bytes - p.read_bytes : ℤ) : ℚ) / dt,
                ((c.write_bytes - p.write_bytes : ℤ) : ℚ) / dt,
                ((c.read_count - p.read_count : ℤ) : ℚ) / dt,
                ((c.write_count - p.write_count : ℤ) : ℚ) / dt⟩ : DiskIORates))
          ∈ disk_io_rates (some prev) io dt) ∧
    (∀ (io : List (String × NetIOCounters)) (dt : ℚ),
        net_io_rates none io dt = []) ∧
    (∀ (prev io : List (String × NetIOCounters)) (dt : ℚ), dt ≤ 0 →
        net_io_rates (some prev) io dt = []) ∧
    (∀ (prev io : List (String × NetIOCounters)) (dt : ℚ)
        (nic : String) (c p : NetIOCounters), 0 < dt → (nic, c) ∈ io →
        prev.lookup nic = some p →
        (nic, (⟨((c.bytes_sent - p.bytes_sent : ℤ) : ℚ) / dt,
               ((c.bytes_recv - p.bytes_recv : ℤ) : ℚ) / dt,
               ((c.packets_sent - p.packets_sent : ℤ) : ℚ) / dt,
               ((c.packets_recv - p.packets_recv : ℤ) : ℚ) / dt⟩ : NetIORates))
          ∈ net_io_rates (some prev) io dt) ∧
    (disk_io_rates (some [("sda", ⟨0, 0, 0, 0, 0, 0⟩)])
        [("sda", ⟨0, 0, 1000000, 0, 0, 0⟩)] 10
      = [("sda", ⟨100000, 0, 0, 0⟩)]) := by
  refine ⟨fun io dt => rfl, ?_, ?_, fun io dt => rfl, ?_, ?_, ?_⟩
  · intro prev io dt hdt
    simp only [disk_io_rates]
    rw [if_neg]
    rintro ⟨-, h⟩
    exact absurd hdt (not_le.mpr h)
  · intro prev io dt disk c p hdt hmem hlook
    have hprev : prev.isEmpty = false := by
      cases prev with
      | nil => simp [List.lookup] at hlook
      | cons q rest => rfl
    simp only [disk_io_rates]
    rw [if_pos ⟨hprev, hdt⟩]
    rw [List.mem_filterMap]
    exact ⟨(disk, c), hmem, by rw [hlook]⟩
  · intro prev io dt hdt
    simp only [net_io_rates]
    rw [if_neg]
    rintro ⟨-, h⟩
    exact absurd hdt (not_le.mpr h)
  · intro prev io dt nic c p hdt hmem hlook
    have hprev : prev.isEmpty = false := by
      cases prev with
      | nil => simp [List.lookup] at hlook
      | cons q rest => rfl
    simp only [net_io_rates]
    rw [if_pos ⟨hprev, hdt⟩]
    rw [List.mem_filterMap]
    exact ⟨(nic, c), hmem, by rw [hlook]⟩
  · simp only [disk_io_rates]
    rw [if_pos ⟨rfl, by norm_num⟩]
    simp [List.lookup]
    norm_num

/-- Witness for C7: applying the general disk formula to two concrete
snapshots 10 seconds apart. -/
theorem io_rates_spec_witness :
    ("sda", (⟨(((1000000 : ℤ) - (0 : ℤ) : ℤ) : ℚ) / 10,
             (((0 : ℤ) - (0 : ℤ) : ℤ) : ℚ) / 10,
             (((0 : ℤ) - (0 : ℤ) : ℤ) : ℚ) / 10,
             (((0 : ℤ) - (0 : ℤ) : ℤ) : ℚ) / 10⟩ : DiskIORates))
        ∈ disk_io_rates (some [("sda", ⟨0, 0, 0, 0, 0, 0⟩)])
            [("sda", ⟨0, 0, 1000000, 0, 0, 0⟩)] 10 := by
  have h := io_rates_spec.2.2.1 [("sda", ⟨0, 0, 0, 0, 0, 0⟩)]
    [("sda", ⟨0, 0, 1000000, 0, 0, 0⟩)] 10 "sda"
    ⟨0, 0, 1000000, 0, 0, 0⟩ ⟨0, 0, 0, 0, 0, 0⟩ (by norm_num)
    (by simp) (by simp [List.lookup])
  exact h

theorem mem_add_metrics_step (C : Nat) (xs : List α) (x y : α)
    (h : y ∈ add_metrics_step C xs x) : y ∈ xs ∨ y = x := by
  simp only [add_metrics_step] at h
  split_ifs at h with hc
  · unfold pySliceFrom at h
    split_ifs at h with hneg
    · have := List.mem_of_mem_drop h
      simpa using this
    · have := List.mem_of_mem_drop h
      simpa using this
  · simpa using h

theorem monitoring_tick_cpu (maxM : Nat) (inp : TickInputs)
    (store : MetricsStore Sample) :
    (monitoring_tick maxM inp store).1.cpu
      = if "cpu" ∈ inp.cfg_metrics
        then add_metrics_step maxM store.cpu
          (collect_cpu_metrics inp.now inp.cpu_attempt)
        else store.cpu := by
  unfold monitoring_tick
  by_cases h1 : "cpu" ∈ inp.cfg_metrics <;>
    by_cases h2 : "memory" ∈ inp.cfg_metrics <;>
      by_cases h3 : "disk" ∈ inp.cfg_metrics <;>
        by_cases h4 : "network" ∈ inp.cfg_metrics <;>
          simp [h1, h2, h3, h4, add_metrics]

theorem monitoring_tick_memory (maxM : Nat) (inp : TickInputs)
    (store : MetricsStore Sample) :
    (monitoring_tick maxM inp store).1.memory
      = if "memory" ∈ inp.cfg_metrics
        then add_metrics_step maxM store.memory
          (collect_memory_metrics inp.now inp.mem_attempt)
        else store.memory := by
  unfold monitoring_tick
  by_cases h1 : "cpu" ∈ inp.cfg_metrics <;>
    by_cases h2 : "memory" ∈ inp.cfg_metrics <;>
      by_cases h3 : "disk" ∈ inp.cfg_metrics <;>
        by_cases h4 : "network" ∈ inp.cfg_metrics <;>
          simp [h1, h2, h3, h4, add_metrics]

theorem monitoring_tick_disk (maxM : Nat) (inp : TickInputs)
    (store : MetricsStore Sample) :
    (monitoring_tick maxM inp store).1.disk
      = if "disk" ∈ inp.cfg_metrics
        then add_metrics_step maxM store.disk
          (collect_disk_metrics inp.now inp.prev_disk inp.elapsed
            inp.disk_attempt)
        else store.disk := by
  unfold monitoring_tick
  by_cases h1 : "cpu" ∈ inp.cfg_metrics <;>
    by_cases h2 : "memory" ∈ inp.cfg_metrics <;>
      by_cases h3 : "disk" ∈ inp.cfg_metrics <;>
        by_cases h4 : "network" ∈ inp.cfg_metrics <;>
          simp [h1, h2, h3, h4, add_metrics]

theorem monitoring_tick_network (maxM : Nat) (inp : TickInputs)
    (store : MetricsStore Sample) :
    (monitoring_tick maxM inp store).1.network
      = if "network" ∈ inp.cfg_metrics
        then add_metrics_step maxM store.network
          (collect_network_metrics inp.now inp.prev_net inp.elapsed
            inp.net_attempt)
        else store.network := by
  unfold monitoring_tick
  by_cases h1 : "cpu" ∈ inp.cfg_metrics <;>
    by_cases h2 : "memory" ∈ inp.cfg_metrics <;>
      by_cases h3 : "disk" ∈ inp.cfg_metrics <;>
        by_cases h4 : "network" ∈ inp.cfg_metrics <;>
          simp [h1, h2, h3, h4, add_metrics]

theorem monitoring_tick_system (maxM : Nat) (inp : TickInputs)
    (store : MetricsStore Sample) :
    (monitoring_tick maxM inp store).1.system
      = add_metrics_step maxM store.system
          (collect_system_metrics inp.now inp.sys_attempt) := by
  unfold monitoring_tick
  by_cases h1 : "cpu" ∈ inp.cfg_metrics <;>
    by_cases h2 : "memory" ∈ inp.cfg_metrics <;>
      by_cases h3 : "disk" ∈ inp.cfg_metrics <;>
        by_cases h4 : "network" ∈ inp.cfg_metrics <;>
          simp [h1, h2, h3, h4, add_metrics]

theorem monitoring_tick_events (maxM : Nat) (inp : TickInputs)
    (store : MetricsStore Sample) :
    (monitoring_tick maxM inp store).2
      = (if "cpu" ∈ inp.cfg_metrics
          then [("cpu", collect_cpu_metrics inp.now inp.cpu_attempt)] else [])
        ++ (if "memory" ∈ inp.cfg_metrics
          then [("memory", collect_memory_metrics inp.now inp.mem_attempt)]
          else [])
        ++ (if "disk" ∈ inp.cfg_metrics
          then [("disk", collect_disk_metrics inp.now inp.prev_disk
            inp.elapsed inp.disk_attempt)] else [])
        ++ (if "network" ∈ inp.cfg_metrics
          then [("network", collect_network_metrics inp.now inp.prev_net
            inp.elapsed inp.net_attempt)] else [])
        ++ [("system", collect_system_metrics inp.now inp.sys_attempt)]
        ++ [("status", calculate_system_status inp.now
            (collect_system_metrics inp.now inp.sys_attempt))] := by
  unfold monitoring_tick
  by_cases h1 : "cpu" ∈ inp.cfg_metrics <;>
    by_cases h2 : "memory" ∈ inp.cfg_metrics <;>
      by_cases h3 : "disk" ∈ inp.cfg_metrics <;>
        by_cases h4 : "network" ∈ inp.cfg_metrics <;>
          simp [h1, h2, h3, h4]

/-- **C5.** For every tick in which the cpu collector raises while the other
categories are enabled, the cpu sample appended for the tick is the
error-marker dict, and the memory, disk, network and system samples of the
same tick are still collected, appended to the store, and published to
their subscribers — no single-category failure aborts the tick. -/
theorem tick_partial_failure_isolation (maxM : Nat) (inp : TickInputs)
    (store : MetricsStore Sample) (e : String)
    (hcpu : inp.cpu_attempt = .error e)
    (h1 : "cpu" ∈ inp.cfg_metrics) (h2 : "memory" ∈ inp.cfg_metrics)
    (h3 : "disk" ∈ inp.cfg_metrics) (h4 : "network" ∈ inp.cfg_metrics) :
    ((monitoring_tick maxM inp store).1.cpu
        = add_metrics_step maxM store.cpu
            [("timestamp", .num inp.now), ("error", .str e)]) ∧
    (("cpu", ([("timestamp", .num inp.now), ("error", .str e)] : Sample))
        ∈ (monitoring_tick maxM inp store).2) ∧
    ((monitoring_tick maxM inp store).1.memory
        = add_metrics_step maxM store.memory
            (collect_memory_metrics inp.now inp.mem_attempt)) ∧
    (("memory", collect_memory_metrics inp.now inp.mem_attempt)
        ∈ (monitoring_tick maxM inp store).2) ∧
    ((monitoring_tick maxM inp store).1.disk
        = add_metrics_step maxM store.disk
            (collect_disk_metrics inp.now inp.prev_disk inp.elapsed
              inp.disk_attempt)) ∧
    (("disk", collect_disk_metrics inp.now inp.prev_disk inp.elapsed
        inp.disk_attempt) ∈ (monitoring_tick maxM inp store).2) ∧
    ((monitoring_tick maxM inp store).1.network
        = add_metrics_step maxM store.network
            (collect_network_metrics inp.now inp.prev_net inp.elapsed
              inp.net_attempt)) ∧
    (("network", collect_network_metrics inp.now inp.prev_net inp.elapsed
        inp.net_attempt) ∈ (monitoring_tick maxM inp store).2) ∧
    ((monitoring_tick maxM inp store).1.system
        = add_metrics_step maxM store.system
            (collect_system_metrics inp.now inp.sys_attempt)) ∧
    (("system", collect_system_metrics inp.now inp.sys_attempt)
        ∈ (monitoring_tick maxM inp store).2) := by
  have herr : collect_cpu_metrics inp.now inp.cpu_attempt
      = [("timestamp", .num inp.now), ("error", .str e)] := by
    rw [hcpu]
    rfl
  refine ⟨?_, ?_, ?_, ?_, ?_, ?_, ?_, ?_, ?_, ?_⟩
  · rw [monitoring_tick_cpu, if_pos h1, herr]
  · rw [monitoring_tick_events, ← herr]
    simp [h1]
  · rw [monitoring_tick_memory, if_pos h2]
  · rw [monitoring_tick_events]
    simp [h2]
  · rw [monitoring_tick_disk, if_pos h3]
  · rw [monitoring_tick_events]
    simp [h3]
  · rw [monitoring_tick_network, if_pos h4]
  · rw [monitoring_tick_events]
    simp [h4]
  · exact monitoring_tick_system maxM inp store
  · rw [monitoring_tick_events]
    simp

/-- Witness for C5 at the concrete failing tick `tick_inputs_ex`: the memory
sample of the tick is still appended even though the cpu collector raised. -/
theorem tick_partial_failure_isolation_witness :
    (monitoring_tick 3600 tick_inputs_ex store0).1.memory
      = add_metrics_step 3600 store0.memory
          (collect_memory_metrics tick_inputs_ex.now
            tick_inputs_ex.mem_attempt) :=
  (tick_partial_failure_isolation 3600 tick_inputs_ex store0 "boom" rfl
    (by decide) (by decide) (by decide) (by decide)).2.2.1

/-- **C8 (amended).** On every tick, the raw system metrics sample assembled
by `_collect_system_metrics` is appended under the "system" category and
published to the "system" subscribers, while the derived status snapshot
(the output of `_calculate_system_status`, which carries the "status" field)
is published to the "status" subscribers — and the "system" series gains
exactly the raw metrics sample, not the snapshot. -/
theorem system_metrics_append_fanout (maxM : Nat) (inp : TickInputs)
    (store : MetricsStore Sample) :
    ((monitoring_tick maxM inp store).1.system
        = add_metrics_step maxM store.system
            (collect_system_metrics inp.now inp.sys_attempt)) ∧
    (("system", collect_system_metrics inp.now inp.sys_attempt)
        ∈ (monitoring_tick maxM inp store).2) ∧
    (("status", calculate_system_status inp.now
        (collect_system_metrics inp.now inp.sys_attempt))
        ∈ (monitoring_tick maxM inp store).2) := by
  refine ⟨monitoring_tick_system maxM inp store, ?_, ?_⟩
  · rw [monitoring_tick_events]
    simp
  · rw [monitoring_tick_events]
    simp

theorem calculate_system_status_lookup (now : ℚ) (metrics : Sample) :
    (calculate_system_status now metrics).lookup "status"
      = some (.str (status_disks (disk_percents (disk_items_of metrics))
          (status_ladder (ratGet metrics "memory_usage")
            (status_ladder (ratGet metrics "cpu_usage") "Healthy")))) := by
  simp only [calculate_system_status]
  simp [List.lookup_cons]

/-- **C8 counterexample.** On a concrete tick, what is appended under
"system" is the raw metrics dict, which has no "status" field — so it is
not the SystemStatusSnapshot of the claim (whose attributes include the
status) — while the snapshot carrying the "status" field is published under
the "status" event category, not "system": `("system", snapshot)` is not
among the tick's publications. -/
theorem system_snapshot_fanout_cex :
    ((monitoring_tick 3600 c8_inputs store0).1.system
        = [collect_system_metrics c8_inputs.now c8_inputs.sys_attempt]) ∧
    ((collect_system_metrics c8_inputs.now c8_inputs.sys_attempt).lookup
        "status" = none) ∧
    (∃ st : String, (calculate_system_status c8_inputs.now
        (collect_system_metrics c8_inputs.now c8_inputs.sys_attempt)).lookup
        "status" = some (.str st)) ∧
    (("status", calculate_system_status c8_inputs.now
        (collect_system_metrics c8_inputs.now c8_inputs.sys_attempt))
        ∈ (monitoring_tick 3600 c8_inputs store0).2) ∧
    (("system", calculate_system_status c8_inputs.now
        (collect_system_metrics c8_inputs.now c8_inputs.sys_attempt))
        ∉ (monitoring_tick 3600 c8_inputs store0).2) := by
  have hsys : (collect_system_metrics c8_inputs.now
      c8_inputs.sys_attempt).lookup "status" = none := by
    simp [c8_inputs, collect_system_metrics, List.lookup_cons, dictGet]
  have hsnap : ∃ st : String, (calculate_system_status c8_inputs.now
      (collect_system_metrics c8_inputs.now c8_inputs.sys_attempt)).lookup
      "status" = some (.str st) :=
    ⟨_, calculate_system_status_lookup c8_inputs.now
      (collect_system_metrics c8_inputs.now c8_inputs.sys_attempt)⟩
  refine ⟨?_, hsys, hsnap, ?_, ?_⟩
  · rw [monitoring_tick_system]
    rfl
  · rw [monitoring_tick_events]
    simp [c8_inputs]
  · rw [monitoring_tick_events]
    intro hmem
    rcases hsnap with ⟨st, hst⟩
    simp only [c8_inputs] at hsys hst
    simp [c8_inputs] at hmem
    rw [hmem] at hst
    rw [hsys] at hst
    exact Option.noConfusion hst

/-- **C10.** Every sample any of the five collectors produces — success or
failure — carries a "timestamp" field holding the capture time, and in the
failure case the sample consists of exactly the "timestamp" and "error"
fields; consequently every sample a monitoring tick appends to any category
of the store is either an older sample or carries the tick's timestamp. -/
theorem samples_always_timestamped :
    (∀ (now : ℚ) (a : Except String CpuReading),
       (collect_cpu_metrics now a).lookup "timestamp" = some (.num now)) ∧
    (∀ (now : ℚ) (e : String),
       collect_cpu_metrics now (.error e)
         = [("timestamp", .num now), ("error", .str e)]) ∧
    (∀ (now : ℚ) (a : Except String (Sample × Sample)),
       (collect_memory_metrics now a).lookup "timestamp" = some (.num now)) ∧
    (∀ (now : ℚ) (e : String),
       collect_memory_metrics now (.error e)
         = [("timestamp", .num now), ("error", .str e)]) ∧
    (∀ (now : ℚ) (prev : Option (List (String × DiskIOCounters))) (dt : ℚ)
       (a : Except String (List PartitionInfo × List (String × DiskIOCounters))),
       (collect_disk_metrics now prev dt a).lookup "timestamp"
         = some (.num now)) ∧
    (∀ (now : ℚ) (prev : Option (List (String × DiskIOCounters))) (dt : ℚ)
       (e : String),
       collect_disk_metrics now prev dt (.error e)
         = [("timestamp", .num now), ("error", .str e)]) ∧
    (∀ (now : ℚ) (prev : Option (List (String × NetIOCounters))) (dt : ℚ)
       (a : Except String (List (String × NetIOCounters) × List ConnInfo)),
       (collect_network_metrics now prev dt a).lookup "timestamp"
         = some (.num now)) ∧
    (∀ (now : ℚ) (prev : Option (List (String × NetIOCounters))) (dt : ℚ)
       (e : String),
       collect_network_metrics now prev dt (.error e)
         = [("timestamp", .num now), ("error", .str e)]) ∧
    (∀ (now : ℚ) (a : Except String SystemReading),
       (collect_system_metrics now a).lookup "timestamp" = some (.num now)) ∧
    (∀ (now : ℚ) (e : String),
       collect_system_metrics now (.error e)
         = [("timestamp", .num now), ("error", .str e)]) ∧
    (∀ (maxM : Nat) (inp : TickInputs) (store : MetricsStore Sample)
       (s : Sample),
       (s ∈ (monitoring_tick maxM inp store).1.cpu → s ∈ store.cpu
         ∨ s.lookup "timestamp" = some (.num inp.now)) ∧
       (s ∈ (monitoring_tick maxM inp store).1.memory → s ∈ store.memory
         ∨ s.lookup "timestamp" = some (.num inp.now)) ∧
       (s ∈ (monitoring_tick maxM inp store).1.disk → s ∈ store.disk
         ∨ s.lookup "timestamp" = some (.num inp.now)) ∧
       (s ∈ (monitoring_tick maxM inp store).1.network → s ∈ store.network
         ∨ s.lookup "timestamp" = some (.num inp.now)) ∧
       (s ∈ (monitoring_tick maxM inp store).1.system → s ∈ store.system
         ∨ s.lookup "timestamp" = some (.num inp.now))) := by
  have hcpu : ∀ (now : ℚ) (a : Except String CpuReading),
      (collect_cpu_metrics now a).lookup "timestamp" = some (.num now) := by
    intro now a
    cases a <;> simp [collect_cpu_metrics, List.lookup_cons]
  have hmem : ∀ (now : ℚ) (a : Except String (Sample × Sample)),
      (collect_memory_metrics now a).lookup "timestamp" = some (.num now) := by
    intro now a
    cases a <;> simp [collect_memory_metrics, List.lookup_cons]
  have hdisk : ∀ (now : ℚ) (prev : Option (List (String × DiskIOCounters)))
      (dt : ℚ)
      (a : Except String (List PartitionInfo × List (String × DiskIOCounters))),
      (collect_disk_metrics now prev dt a).lookup "timestamp"
        = some (.num now) := by
    intro now prev dt a
    cases a <;> simp [collect_disk_metrics, List.lookup_cons]
  have hnet : ∀ (now : ℚ) (prev : Option (List (String × NetIOCounters)))
      (dt : ℚ)
      (a : Except String (List (String × NetIOCounters) × List ConnInfo)),
      (collect_network_metrics now prev dt a).lookup "timestamp"
        = some (.num now) := by
    intro now prev dt a
    cases a <;> simp [collect_network_metrics, List.lookup_cons]
  have hsysl : ∀ (now : ℚ) (a : Except String SystemReading),
      (collect_system_metrics now a).lookup "timestamp" = some (.num now) := by
    intro now a
    cases a <;> simp [collect_system_metrics, List.lookup_cons]
  refine ⟨hcpu, fun now e => rfl, hmem, fun now e => rfl, hdisk,
    fun now prev dt e => rfl, hnet, fun now prev dt e => rfl, hsysl,
    fun now e => rfl, ?_⟩
  intro maxM inp store s
  refine ⟨?_, ?_, ?_, ?_, ?_⟩
  · rw [monitoring_tick_cpu]
    split_ifs with hin
    · intro hs
      rcases mem_add_metrics_step _ _ _ _ hs with h | h
      · exact Or.inl h
      · exact Or.inr (h ▸ hcpu inp.now inp.cpu_attempt)
    · exact fun hs => Or.inl hs
  · rw [monitoring_tick_memory]
    split_ifs with hin
    · intro hs
      rcases mem_add_metrics_step _ _ _ _ hs with h | h
      · exact Or.inl h
      · exact Or.inr (h ▸ hmem inp.now inp.mem_attempt)
    · exact fun hs => Or.inl hs
  · rw [monitoring_tick_disk]
    split_ifs with hin
    · intro hs
      rcases mem_add_metrics_step _ _ _ _ hs with h | h
      · exact Or.inl h
      · exact Or.inr (h ▸ hdisk inp.now inp.prev_disk inp.elapsed
          inp.disk_attempt)
    · exact fun hs => Or.inl hs
  · rw [monitoring_tick_network]
    split_ifs with hin
    · intro hs
      rcases mem_add_metrics_step _ _ _ _ hs with h | h
      · exact Or.inl h
      · exact Or.inr (h ▸ hnet inp.now inp.prev_net inp.elapsed
          inp.net_attempt)
    · exact fun hs => Or.inl hs
  · rw [monitoring_tick_system]
    intro hs
    rcases mem_add_metrics_step _ _ _ _ hs with h | h
    · exact Or.inl h
    · exact Or.inr (h ▸ hsysl inp.now inp.sys_attempt)

/-- Witness for C10: the error sample the failing cpu collector of
`tick_inputs_ex` appends carries its timestamp (applying the store-level
invariant at a concrete tick on the empty store). -/
theorem samples_always_timestamped_witness :
    ([("timestamp", Val.num 100), ("error", Val.str "boom")] : Sample)
        ∈ store0.cpu ∨
    ([("timestamp", Val.num 100), ("error", Val.str "boom")] : Sample).lookup
        "timestamp" = some (.num 100) :=
  (samples_always_timestamped.2.2.2.2.2.2.2.2.2.2 3600 tick_inputs_ex store0
    [("timestamp", Val.num 100), ("error", Val.str "boom")]).1
    (by rw [monitoring_tick_cpu, if_pos (by decide)]
        show _ ∈ add_metrics_step 3600 ([] : List Sample) _
        simp [add_metrics_step, tick_inputs_ex, collect_cpu_metrics])

end MonSpec
